import Mathlib

/-!
Shallow embedding of the identity-resolution and login logic of
`main.py` (Bluesky self-follow tool), together with theorems checking the
specification's claims about it.

Python strings are modelled as Lean `String`; machine-level concerns do not
arise.  Python truthiness on optional strings (`None` and `""` are falsy) is
modelled explicitly.  Network and authentication effects are modelled by an
explicit environment of transport outcomes; an uncaught Python exception is
modelled by `Except.error`.
-/

/-! ## Character-list primitives (Python string operations) -/

/-- Membership of a character in a list (Python `c in s` for 1-char `c`). -/
def listHas (c : Char) : List Char → Bool
  | [] => false
  | a :: r => if a = c then true else listHas c r

/-- `listIsPref p l` : `p` is a prefix of `l` (Python `startswith`). -/
def listIsPref : List Char → List Char → Bool
  | [], _ => true
  | _ :: _, [] => false
  | a :: p, b :: l => a = b && listIsPref p l

/-- Python `c in s` for a single-character pattern `c`. -/
def pyContains (s : String) (c : Char) : Bool := listHas c s.data

/-- Python `s.startswith(p)`. -/
def pyStartsWith (s p : String) : Bool := listIsPref p.data s.data

/-- Python `s.endswith(p)`. -/
def pyEndsWith (s p : String) : Bool := listIsPref p.data.reverse s.data.reverse

/-- Python `s[n:]`. -/
def pyDrop (s : String) (n : Nat) : String := ⟨s.data.drop n⟩

/-- Python `s.rstrip(c)` for a single-character argument. -/
def pyRstrip (s : String) (c : Char) : String :=
  ⟨(s.data.reverse.dropWhile (fun a => a = c)).reverse⟩

/-- Python whitespace test used by `str.strip()`. -/
def pySpace (c : Char) : Bool :=
  c = ' ' || c = '\t' || c = '\n' || c = '\r' || c = '\x0b' || c = '\x0c'

/-- Python `s.strip()`. -/
def pyStrip (s : String) : String :=
  ⟨((s.data.dropWhile pySpace).reverse.dropWhile pySpace).reverse⟩

/-- Python `s[1:-1]` (used to drop surrounding quotes). -/
def pyInner (s : String) : String := ⟨(s.data.drop 1).dropLast⟩

/-- Everything strictly before the first occurrence of `c`
(Python `s.split(c, 1)[0]`). -/
def beforeChar (c : Char) (l : List Char) : List Char :=
  l.takeWhile (fun a => !(a = c))

/-- Everything strictly after the first occurrence of `c`
(Python `s.split(c, 1)[1]`, defined when `c` occurs). -/
def afterFirst (c : Char) (l : List Char) : List Char :=
  (l.dropWhile (fun a => !(a = c))).drop 1

/-! ## Python truthiness on optional strings -/

/-- Truthiness of an optional string: `None` and `""` are falsy. -/
def pyTruthyStr : Option String → Bool
  | none => false
  | some s => !(s = "")

/-- Python `a or b` on optional strings. -/
def pyOr (a b : Option String) : Option String :=
  if pyTruthyStr a then a else b

/-- Python `a or dflt` when `dflt` is a plain string. -/
def pyOrStr (a : Option String) (dflt : String) : String :=
  match a with
  | some s => if s = "" then dflt else s
  | none => dflt

/-! ## Basic lemmas about the primitives -/

theorem data_append (s t : String) : (s ++ t).data = s.data ++ t.data := by
  cases s; cases t; rfl

theorem listHas_append (c : Char) (l m : List Char) :
    listHas c (l ++ m) = (listHas c l || listHas c m) := by
  induction l with
  | nil => rfl
  | cons a r ih =>
    by_cases h : a = c <;> simp [listHas, h, ih]

theorem listIsPref_self_append (p r : List Char) :
    listIsPref p (p ++ r) = true := by
  induction p with
  | nil => rfl
  | cons a q ih => simp [listIsPref, ih]

theorem listIsPref_append_of (p l m : List Char) (h : listIsPref p l = true) :
    listIsPref p (l ++ m) = true := by
  induction p generalizing l with
  | nil => rfl
  | cons a q ih =>
    cases l with
    | nil => simp [listIsPref] at h
    | cons b r =>
      simp only [listIsPref, Bool.and_eq_true] at h ⊢
      exact ⟨h.1, ih r h.2⟩

theorem listHas_drop_false (c : Char) (l : List Char) (n : Nat)
    (h : listHas c l = false) : listHas c (l.drop n) = false := by
  induction l generalizing n with
  | nil => simp [List.drop_nil, listHas]
  | cons a r ih =>
    cases n with
    | zero => exact h
    | succ m =>
      simp only [listHas] at h
      by_cases ha : a = c
      · simp [ha] at h
      · simp only [List.drop_succ_cons]
        exact ih m (by simpa [ha] using h)

theorem pyStartsWith_ne_empty (s p : String) (hp : p ≠ "")
    (h : pyStartsWith s p = true) : s ≠ "" := by
  intro hs
  subst hs
  unfold pyStartsWith at h
  cases hpd : p.data with
  | nil =>
    apply hp
    cases p with
    | mk d => cases hpd; rfl
  | cons a q => rw [hpd] at h; simp [listIsPref] at h

theorem pyStartsWith_append (s t p : String) (h : pyStartsWith s p = true) :
    pyStartsWith (s ++ t) p = true := by
  unfold pyStartsWith at h ⊢
  rw [data_append]
  exact listIsPref_append_of _ _ _ h

/-! ## HandleNormalizer : `strip_at` and `maybe_assume_bsky` -/

/-- From `main.py`: `return h[1:] if h.startswith("@") else h`. -/
def strip_at (h : String) : String :=
  if pyStartsWith h "@" then pyDrop h 1 else h

/-- From `main.py`: assume `<handle>.bsky.social` for a bare single token. -/
def maybe_assume_bsky (handle : String) : String :=
  if pyStartsWith handle "did:" then handle
  else if pyContains handle '.' = false then handle ++ ".bsky.social"
  else handle

theorem pyContains_strip_at_false (h : String) (c : Char)
    (hc : pyContains h c = false) : pyContains (strip_at h) c = false := by
  unfold strip_at
  by_cases hs : pyStartsWith h "@" = true
  · simp only [hs, if_true]
    unfold pyContains at hc ⊢
    exact listHas_drop_false c h.data 1 hc
  · simp only [hs]
    simpa using hc

theorem pyContains_append_bsky (h : String) :
    pyContains (h ++ ".bsky.social") '.' = true := by
  unfold pyContains
  rw [data_append, listHas_append]
  have : listHas '.' (".bsky.social").data = true := by decide
  rw [this, Bool.or_true]

/-- C6: a bare, non-DID token gets the default suffix appended exactly once;
an already-dotted or DID-prefixed handle is returned unchanged; the
normalizer is idempotent, so the suffix is never double-appended. -/
theorem maybe_assume_bsky_spec (h : String) :
    (pyStartsWith h "did:" = false → pyContains h '.' = false →
      maybe_assume_bsky h = h ++ ".bsky.social")
  ∧ (pyContains h '.' = true ∨ pyStartsWith h "did:" = true →
      maybe_assume_bsky h = h)
  ∧ maybe_assume_bsky (maybe_assume_bsky h) = maybe_assume_bsky h := by
  refine ⟨?_, ?_, ?_⟩
  · intro h1 h2
    simp [maybe_assume_bsky, h1, h2]
  · rintro (h1 | h1)
    · by_cases hd : pyStartsWith h "did:" = true <;>
        simp [maybe_assume_bsky, h1, hd]
    · simp [maybe_assume_bsky, h1]
  · by_cases hd : pyStartsWith h "did:" = true
    · simp [maybe_assume_bsky, hd]
    · by_cases hc : pyContains h '.' = true
      · simp [maybe_assume_bsky, hd, hc]
      · have hstep : maybe_assume_bsky h = h ++ ".bsky.social" := by
          simp [maybe_assume_bsky, hd, hc]
        rw [hstep]
        by_cases hd2 : pyStartsWith (h ++ ".bsky.social") "did:" = true
        · simp [maybe_assume_bsky, hd2]
        · simp [maybe_assume_bsky, hd2, pyContains_append_bsky h]

/-- C6 witness: concrete instances of all three conjuncts. -/
theorem maybe_assume_bsky_spec_witness :
    maybe_assume_bsky "alice" = "alice.bsky.social"
  ∧ maybe_assume_bsky "bob.example.com" = "bob.example.com"
  ∧ maybe_assume_bsky (maybe_assume_bsky "alice") = maybe_assume_bsky "alice" := by
  refine ⟨?_, ?_, (maybe_assume_bsky_spec "alice").2.2⟩
  · exact (maybe_assume_bsky_spec "alice").1 (by decide) (by decide)
  · exact (maybe_assume_bsky_spec "bob.example.com").2.1 (Or.inl (by decide))

/-! ## Data model : DID documents and JSON bodies -/

/-- A JSON value sitting in an endpoint field: either a string or some
non-string value, of which only the Python truthiness is relevant. -/
inductive PyStr where
  | str (s : String)
  | other (truthy : Bool)
deriving DecidableEq

/-- One service descriptor of a DID document.  `none` models a missing key. -/
structure SvcEntry where
  id : Option String
  serviceEndpoint : Option PyStr
  serviceEndpointURL : Option PyStr
deriving DecidableEq

/-- A DID document, as far as the tool inspects it: the two accepted service
list keys, plus a flag recording whether the underlying dict has any further
keys (which decides its Python truthiness). -/
structure DidDoc where
  service : Option (List SvcEntry)
  services : Option (List SvcEntry)
  extraKeys : Bool
deriving DecidableEq

/-- Python truthiness of the document dict: nonempty iff it has some key. -/
def docTruthy (d : DidDoc) : Bool :=
  d.service.isSome || d.services.isSome || d.extraKeys

/-- Truthiness of an optional endpoint value. -/
def pyTruthyVal : Option PyStr → Bool
  | none => false
  | some (.str s) => !(s = "")
  | some (.other t) => t

/-- Python `a or b` on optional endpoint values. -/
def pyOrVal (a b : Option PyStr) : Option PyStr :=
  if pyTruthyVal a then a else b

/-- Parsed JSON of the public resolveHandle endpoint: a dict with an optional
`did` key, or a non-dict value (on which `.get` raises). -/
inductive PubJson where
  | obj (did : Option String)
  | nonObj
deriving DecidableEq

/-- Parsed JSON of the universal resolver: a dict with an optional
`didDocument` key, or a non-dict value. -/
inductive UniJson where
  | obj (didDocument : Option DidDoc)
  | nonObj
deriving DecidableEq

/-- Outcome of one HTTP GET: a raised transport error (timeout, network
failure), or a response with a status code and a body. -/
inductive HttpOut (β : Type) where
  | exc
  | resp (status : Nat) (body : β)
deriving DecidableEq

/-- The modelled Python exception that escapes a component. -/
inductive PyExc where
  | indexError
deriving DecidableEq

/-- Transport environment: every network interaction of the resolution code,
keyed by the query or URL the code builds.  A JSON body of `none` means the
response body was unparseable (`r.json()` raises, inside the `try`). -/
structure Net where
  dnsAvail : Bool
  dnsTxt : String → Option (List String)
  httpText : String → HttpOut String
  httpPub : String → HttpOut (Option PubJson)
  httpJson : String → HttpOut (Option DidDoc)
  httpUni : String → HttpOut (Option UniJson)

/-! ## HandleResolver : the three strategies -/

/-- Scan DNS TXT answers for a `did=` token, stripping outer quotes
(the `for ans in answers` loop of `resolve_handle_via_dns`). -/
def dnsScan : List String → Option String
  | [] => none
  | a :: rest =>
    let text := pyStrip a
    let text2 :=
      if pyStartsWith text "\"" && pyEndsWith text "\"" then pyInner text
      else text
    if pyStartsWith text2 "did=" then some (pyStrip ⟨afterFirst '=' text2.data⟩)
    else dnsScan rest

/-- From `main.py`: DNS TXT lookup of `_atproto.<domain>`.  Returns `none`
when the DNS library is unavailable, the query raises, or no answer carries a
`did=` token.  (`handle.count(".") >= 1` is embedded as `pyContains`, which
agrees with it.) -/
def resolve_handle_via_dns (net : Net) (handle : String) : Option String :=
  if net.dnsAvail = false then none
  else
    let name :=
      if pyContains handle '.' && !(pyStartsWith handle "did:") then
        (⟨afterFirst '.' (strip_at handle).data⟩ : String)
      else strip_at handle
    let query := "_atproto." ++ name
    match net.dnsTxt query with
    | none => none
    | some answers => dnsScan answers

/-- From `main.py`: fetch `https://<domain>/.well-known/atproto-did`.  The
domain extraction happens before the `try` block; the branch for a raw input
containing `/` but whose first `/`-segment has no `.` performs
`split(".", 1)[1]` on a dot-free string, raising `IndexError`. -/
def resolve_handle_via_well_known (net : Net) (handle : String) :
    Except PyExc (Option String) :=
  let raw := strip_at handle
  let domainE : Except PyExc String :=
    if pyContains raw '/' then
      if pyContains raw '.' then
        let seg : String := ⟨beforeChar '/' raw.data⟩
        if pyContains seg '.' then .ok ⟨afterFirst '.' seg.data⟩
        else .error .indexError
      else .ok raw
    else
      if pyContains raw '.' then .ok ⟨afterFirst '.' raw.data⟩ else .ok raw
  match domainE with
  | .error e => .error e
  | .ok domain =>
    if domain = "" then .ok none
    else
      let url := "https://" ++ domain ++ "/.well-known/atproto-did"
      match net.httpText url with
      | .exc => .ok none
      | .resp st body => if st = 200 then .ok (some (pyStrip body)) else .ok none

/-- From `main.py`: ask the public resolver for the handle's DID.  Everything
(including JSON parsing and `.get`) sits inside one `try`, so every failure
yields `none`. -/
def resolve_handle_public_api (net : Net) (handle : String) : Option String :=
  match net.httpPub (strip_at handle) with
  | .exc => none
  | .resp st body =>
    if st = 200 then
      match body with
      | none => none
      | some (.obj d) => d
      | some .nonObj => none
    else none

/-- The strategies of the resolution cascade, in source order. -/
inductive Strat where
  | dns
  | wellKnown
  | publicApi
deriving DecidableEq

/-- From `main.py`: the three-strategy cascade of `resolve_handle_to_did`,
instrumented with the list of strategies actually invoked.  The DNS call is
wrapped in a `try` in the source; the embedded call cannot raise.  An
`IndexError` escaping the well-known strategy propagates (the call is not
guarded in the source). -/
def resolve_handle_to_did_traced (net : Net) (handle : String) :
    Except PyExc (Option String) × List Strat :=
  let handle := strip_at handle
  let d1 := if net.dnsAvail then resolve_handle_via_dns net handle else none
  let t1 : List Strat := if net.dnsAvail then [.dns] else []
  if pyTruthyStr d1 then (.ok d1, t1)
  else
    match resolve_handle_via_well_known net handle with
    | .error e => (.error e, t1 ++ [.wellKnown])
    | .ok d2 =>
      if pyTruthyStr d2 then (.ok d2, t1 ++ [.wellKnown])
      else (.ok (resolve_handle_public_api net handle),
            t1 ++ [.wellKnown, .publicApi])

/-- From `main.py`: `resolve_handle_to_did` (the value component). -/
def resolve_handle_to_did (net : Net) (handle : String) :
    Except PyExc (Option String) :=
  (resolve_handle_to_did_traced net handle).fst

/-! ## DidDocumentFetcher -/

/-- `did:web` suffix conversion: `suffix.replace(":", "/")`. -/
def mapColonToSlash (s : String) : String :=
  ⟨s.data.map (fun c => if c = ':' then '/' else c)⟩

/-- From `main.py`: fetch the DID document, branching on the DID method.
`did:web:` uses the domain's well-known path; a `did:plc` prefix (the source
tests both `"did:plc:"` and `"did:plc"`) uses plc.directory; anything else
uses the universal resolver and unwraps a `didDocument` field when the 200
JSON body is a dict containing that key. -/
def fetch_did_document (net : Net) (did : String) : Option DidDoc :=
  if pyStartsWith did "did:web:" then
    let domain := mapColonToSlash (pyDrop did 8)
    match net.httpJson ("https://" ++ domain ++ "/.well-known/did.json") with
    | .exc => none
    | .resp st body => if st = 200 then body else none
  else if pyStartsWith did "did:plc:" || pyStartsWith did "did:plc" then
    match net.httpJson ("https://plc.directory/" ++ did) with
    | .exc => none
    | .resp st body => if st = 200 then body else none
  else
    match net.httpUni ("https://uniresolver.io/1.0/identifiers/" ++ did) with
    | .exc => none
    | .resp st body =>
      if st = 200 then
        match body with
        | none => none
        | some (.obj (some dd)) => some dd
        | some (.obj none) => none
        | some .nonObj => none
      else none

/-! ## ServiceEndpointExtractor -/

/-- The id test of the first loop:
`sid.endswith("#atproto_pds") or sid == "#atproto_pds" or sid == f"{did}#atproto_pds"`
with `sid = s.get("id", "")`. -/
def idMatch (s : SvcEntry) (did : String) : Bool :=
  let sid := s.id.getD ""
  pyEndsWith sid "#atproto_pds" || sid = "#atproto_pds" ||
    sid = did ++ "#atproto_pds"

/-- The endpoint chosen inside the first loop:
`s.get("serviceEndpoint") or s.get("serviceEndpointURL") or s.get("serviceEndpoint")`
(the third disjunct repeats the first, as in the source), accepted only when
it is a nonempty string. -/
def validEp (s : SvcEntry) : Option String :=
  match pyOrVal (pyOrVal s.serviceEndpoint s.serviceEndpointURL)
      s.serviceEndpoint with
  | some (.str t) => if t = "" then none else some t
  | _ => none

/-- The fallback test of the second loop:
`s.get("serviceEndpoint") or s.get("serviceEndpointURL")`, kept when it is a
string starting with `"http"`. -/
def fallbackEp (s : SvcEntry) : Option String :=
  match pyOrVal s.serviceEndpoint s.serviceEndpointURL with
  | some (.str t) => if pyStartsWith t "http" then some t else none
  | _ => none

/-- First loop of `extract_pds_from_did_doc`. -/
def firstIdMatch (did : String) : List SvcEntry → Option String
  | [] => none
  | s :: rest =>
    match (if idMatch s did then validEp s else none) with
    | some t => some (pyRstrip t '/')
    | none => firstIdMatch did rest

/-- Second loop of `extract_pds_from_did_doc`. -/
def firstHttp : List SvcEntry → Option String
  | [] => none
  | s :: rest =>
    match fallbackEp s with
    | some t => some (pyRstrip t '/')
    | none => firstHttp rest

/-- `svc = did_doc.get("service") or did_doc.get("services") or []`
(Python `or` with list truthiness: an empty list falls through). -/
def svcList (d : DidDoc) : List SvcEntry :=
  match d.service with
  | some l =>
    if l ≠ [] then l
    else match d.services with
      | some m => if m ≠ [] then m else []
      | none => []
  | none =>
    match d.services with
    | some m => if m ≠ [] then m else []
    | none => []

/-- From `main.py`: `extract_pds_from_did_doc`. -/
def extract_pds_from_did_doc (did_doc : DidDoc) (did : String) :
    Option String :=
  let svc := svcList did_doc
  if svc = [] then none
  else
    match firstIdMatch did svc with
    | some r => some r
    | none => firstHttp svc

/-! ## SessionEstablisher : `try_login` and `login_flow` -/

/-- Outcome of one `client.login` call, as the environment decrees it:
either the authenticated identity (with the client's `me.did` attribute and
the coerced profile — whether it coerced to a dict, and its `did` field), or
a raised error with its text. -/
inductive LoginRes where
  | success (meDid : Option String) (profIsDict : Bool) (profDid : Option String)
  | failure (err : String)
deriving DecidableEq

/-- The whole effect environment of one run of the flow: the network, the
authentication backend (keyed by base URL, identifier, password), and what
the password prompt returns. -/
structure Env where
  net : Net
  login : Option String → String → String → LoginRes
  appPassword : String

/-- An authenticated client: the base URL it was constructed with (`none`
for the default service) and its `me.did` attribute. -/
structure ClientState where
  base : Option String
  meDid : Option String
deriving DecidableEq

/-- Second component of `try_login`'s result: the coerced profile or the
`{"error": ...}` dict. -/
inductive ProfOrErr where
  | prof (isDict : Bool) (did : Option String)
  | errDict (e : String)
deriving DecidableEq

/-- From `main.py` (`try_login`): normalize a nonempty base URL — append
`"/xrpc"` unless it is already the suffix, after dropping trailing slashes. -/
def normBase (u : String) : String :=
  if pyEndsWith u "/xrpc" then u else pyRstrip u '/' ++ "/xrpc"

/-- The base URL the `Client` is constructed with: `Client()` (default) when
the argument is `None` or empty (Python truthiness), else the normalized
URL. -/
def clientBase (client_base_url : Option String) : Option String :=
  match client_base_url with
  | none => none
  | some u => if u = "" then none else some (normBase u)

/-- From `main.py`: `try_login`.  A raised login error is caught and turned
into `(None, {"error": ...})`. -/
def try_login (env : Env) (client_base_url : Option String)
    (identifier app_password : String) :
    Option ClientState × ProfOrErr :=
  let base := clientBase client_base_url
  match env.login base identifier app_password with
  | .success meDid isDict pDid => (some ⟨base, meDid⟩, .prof isDict pDid)
  | .failure e => (none, .errDict e)

/-- The profile `did` consulted in the default-service success branch:
`profile_or_err.get("did") if isinstance(profile_or_err, dict) else None`. -/
def profDictDid : ProfOrErr → Option String
  | .prof true d => d
  | _ => none

/-- Lines 246-249 of `main.py`: expand a bare, non-DID token to the default
domain (the informational print is I/O). -/
def normalizedInput (input_val : String) : String :=
  if !(pyStartsWith input_val "did:") && !(pyContains input_val '.') then
    maybe_assume_bsky input_val
  else input_val

instance instDecEqExcept {ε α : Type} [DecidableEq ε] [DecidableEq α] :
    DecidableEq (Except ε α) := fun a b =>
  match a, b with
  | .error e, .error f =>
    if h : e = f then .isTrue (by rw [h])
    else .isFalse (fun hc => h (Except.error.inj hc))
  | .ok x, .ok y =>
    if h : x = y then .isTrue (by rw [h])
    else .isFalse (fun hc => h (Except.ok.inj hc))
  | .error _, .ok _ => .isFalse (fun hc => Except.noConfusion hc)
  | .ok _, .error _ => .isFalse (fun hc => Except.noConfusion hc)

/-- Instrumented result of one `login_flow` run: the returned value (or the
escaped exception), the bases handed to `try_login` in order, the login
identifier after normalization, and the intermediate resolution values at the
point each passed its guard (`none` = never reached or guard failed). -/
structure FlowTrace where
  result : Except PyExc (Option (ClientState × String))
  attempts : List (Option String)
  identifier : Option String
  did : Option String
  doc : Option DidDoc
  pds : Option String
deriving DecidableEq

/-- From `main.py`: `login_flow`, instrumented with a `FlowTrace`.  Mirrors
the source: trim; reject empty input; expand a bare token; one password
prompt (reject empty); quick attempt against the default service; on failure
resolve the handle (a DID input bypasses resolution), fetch the DID document,
extract the PDS, and make exactly one further attempt against it. -/
def login_flow (env : Env) (raw_input_handle : String) : FlowTrace :=
  let input_val := pyStrip raw_input_handle
  if input_val = "" then ⟨.ok none, [], none, none, none, none⟩
  else
    let input_val := normalizedInput input_val
    let identifier_for_login := input_val
    let app_password := pyStrip env.appPassword
    if app_password = "" then
      ⟨.ok none, [], some identifier_for_login, none, none, none⟩
    else
      match try_login env none identifier_for_login app_password with
      | (some client, porf) =>
        let user_did := pyOr client.meDid (profDictDid porf)
        ⟨.ok (some (client, pyOrStr user_did identifier_for_login)),
          [none], some identifier_for_login, none, none, none⟩
      | (none, _) =>
        let didE :=
          if pyStartsWith input_val "did:" then .ok (some input_val)
          else resolve_handle_to_did env.net input_val
        match didE with
        | .error e =>
          ⟨.error e, [none], some identifier_for_login, none, none, none⟩
        | .ok dOpt =>
          match dOpt with
          | none => ⟨.ok none, [none], some identifier_for_login,
                      none, none, none⟩
          | some d =>
            if d = "" then
              ⟨.ok none, [none], some identifier_for_login, none, none, none⟩
            else
              match fetch_did_document env.net d with
              | none => ⟨.ok none, [none], some identifier_for_login,
                          some d, none, none⟩
              | some doc =>
                if docTruthy doc = false then
                  ⟨.ok none, [none], some identifier_for_login,
                    some d, none, none⟩
                else
                  match extract_pds_from_did_doc doc d with
                  | none => ⟨.ok none, [none], some identifier_for_login,
                              some d, some doc, none⟩
                  | some p =>
                    if p = "" then
                      ⟨.ok none, [none], some identifier_for_login,
                        some d, some doc, none⟩
                    else
                      match try_login env (some p) identifier_for_login
                          app_password with
                      | (some client, _) =>
                        ⟨.ok (some (client, pyOrStr client.meDid d)),
                          [none, some p], some identifier_for_login,
                          some d, some doc, some p⟩
                      | (none, _) =>
                        ⟨.ok none, [none, some p],
                          some identifier_for_login,
                          some d, some doc, some p⟩

/-! ## The outer interactive step of `main` -/

/-- What one iteration of `main`'s loop does with the entered handle:
re-prompt for the handle when it is empty; otherwise run `login_flow` and
either report failure (the user is asked whether to try another handle),
proceed with a session, or crash on an escaped exception. -/
inductive MainStep where
  | repromptHandle
  | loginFailed
  | loggedIn (c : ClientState) (d : String)
  | crashed (e : PyExc)
deriving DecidableEq

/-- One iteration of `main`'s prompt loop, paired with the login attempts the
iteration made. -/
def main_handle_step (env : Env) (rawHandle : String) :
    MainStep × List (Option String) :=
  let handle := pyStrip rawHandle
  if handle = "" then (.repromptHandle, [])
  else
    let t := login_flow env handle
    match t.result with
    | .error e => (.crashed e, t.attempts)
    | .ok none => (.loginFailed, t.attempts)
    | .ok (some (c, d)) => (.loggedIn c d, t.attempts)

/-! ## Branch analysis of `login_flow` -/

theorem append_ne_empty_right (s t : String) (ht : t ≠ "") : s ++ t ≠ "" := by
  intro h
  apply ht
  have hd : (s ++ t).data = [] := by rw [h]
  rw [data_append] at hd
  have : t.data = [] := by
    cases (List.append_eq_nil.mp hd) with
    | intro h1 h2 => exact h2
  cases t with
  | mk d => cases this; rfl

theorem maybe_assume_bsky_ne_empty (v : String) (hv : v ≠ "") :
    maybe_assume_bsky v ≠ "" := by
  unfold maybe_assume_bsky
  by_cases h1 : pyStartsWith v "did:" = true
  · simpa [h1] using hv
  · by_cases h2 : pyContains v '.' = false
    · simp only [h1, h2, if_false, if_true, Bool.false_eq_true]
      exact append_ne_empty_right v ".bsky.social" (by decide)
    · simpa [h1, h2] using hv

theorem normalizedInput_ne_empty (v : String) (hv : v ≠ "") :
    normalizedInput v ≠ "" := by
  unfold normalizedInput
  split
  · exact maybe_assume_bsky_ne_empty v hv
  · exact hv

theorem try_login_some (env : Env) (b : Option String) (idf pw : String)
    (c : ClientState) (porf : ProfOrErr)
    (h : try_login env b idf pw = (some c, porf)) :
    c.base = clientBase b ∧
    ∃ isDict pDid, env.login (clientBase b) idf pw = .success c.meDid isDict pDid
      ∧ porf = .prof isDict pDid := by
  simp only [try_login] at h
  revert h
  cases hl : env.login (clientBase b) idf pw with
  | success meDid isDict pDid =>
    intro h
    injection h with h1 h2
    injection h1 with h1
    subst h1
    subst h2
    exact ⟨rfl, isDict, pDid, rfl, rfl⟩
  | failure e =>
    intro h
    injection h with h1 h2
    exact Option.noConfusion h1

/-- Exhaustive branch analysis of one `login_flow` run: every run takes one
of nine shapes, matching the control flow of the source. -/
theorem login_flow_master (env : Env) (raw : String) :
    (pyStrip raw = "" ∧
      login_flow env raw = ⟨.ok none, [], none, none, none, none⟩)
  ∨ (pyStrip raw ≠ "" ∧ pyStrip env.appPassword = "" ∧
      login_flow env raw =
        ⟨.ok none, [], some (normalizedInput (pyStrip raw)), none, none, none⟩)
  ∨ (pyStrip raw ≠ "" ∧ pyStrip env.appPassword ≠ "" ∧
      ∃ c porf,
        try_login env none (normalizedInput (pyStrip raw))
            (pyStrip env.appPassword) = (some c, porf) ∧
        login_flow env raw =
          ⟨.ok (some (c, pyOrStr (pyOr c.meDid (profDictDid porf))
              (normalizedInput (pyStrip raw)))),
            [none], some (normalizedInput (pyStrip raw)), none, none, none⟩)
  ∨ (pyStrip raw ≠ "" ∧ pyStrip env.appPassword ≠ "" ∧
      ∃ e, login_flow env raw =
        ⟨.error e, [none], some (normalizedInput (pyStrip raw)),
          none, none, none⟩)
  ∨ (pyStrip raw ≠ "" ∧ pyStrip env.appPassword ≠ "" ∧
      login_flow env raw =
        ⟨.ok none, [none], some (normalizedInput (pyStrip raw)),
          none, none, none⟩)
  ∨ (pyStrip raw ≠ "" ∧ pyStrip env.appPassword ≠ "" ∧
      ∃ d, d ≠ "" ∧ login_flow env raw =
        ⟨.ok none, [none], some (normalizedInput (pyStrip raw)),
          some d, none, none⟩)
  ∨ (pyStrip raw ≠ "" ∧ pyStrip env.appPassword ≠ "" ∧
      ∃ d doc, d ≠ "" ∧ docTruthy doc = true ∧ login_flow env raw =
        ⟨.ok none, [none], some (normalizedInput (pyStrip raw)),
          some d, some doc, none⟩)
  ∨ (pyStrip raw ≠ "" ∧ pyStrip env.appPassword ≠ "" ∧
      ∃ d doc p c porf, d ≠ "" ∧ docTruthy doc = true ∧ p ≠ "" ∧
        try_login env (some p) (normalizedInput (pyStrip raw))
            (pyStrip env.appPassword) = (some c, porf) ∧
        login_flow env raw =
          ⟨.ok (some (c, pyOrStr c.meDid d)), [none, some p],
            some (normalizedInput (pyStrip raw)), some d, some doc, some p⟩)
  ∨ (pyStrip raw ≠ "" ∧ pyStrip env.appPassword ≠ "" ∧
      ∃ d doc p, d ≠ "" ∧ docTruthy doc = true ∧ p ≠ "" ∧
        login_flow env raw =
          ⟨.ok none, [none, some p],
            some (normalizedInput (pyStrip raw)), some d, some doc, some p⟩) := by
  by_cases hv : pyStrip raw = ""
  · exact Or.inl ⟨hv, by simp [login_flow, hv]⟩
  · by_cases hpw : pyStrip env.appPassword = ""
    · exact Or.inr (Or.inl ⟨hv, hpw, by simp [login_flow, hv, hpw]⟩)
    · rcases htl : try_login env none (normalizedInput (pyStrip raw))
          (pyStrip env.appPassword) with ⟨oc, porf⟩
      cases oc with
      | some c =>
        refine Or.inr (Or.inr (Or.inl ⟨hv, hpw, c, porf, rfl, ?_⟩))
        simp [login_flow, hv, hpw, htl]
      | none =>
        rcases hre : (if pyStartsWith (normalizedInput (pyStrip raw)) "did:" then
              (Except.ok (some (normalizedInput (pyStrip raw))) :
                Except PyExc (Option String))
            else resolve_handle_to_did env.net
              (normalizedInput (pyStrip raw))) with e | dOpt
        · exact Or.inr (Or.inr (Or.inr (Or.inl ⟨hv, hpw, e,
            by simp [login_flow, hv, hpw, htl, hre]⟩)))
        · cases dOpt with
          | none =>
            exact Or.inr (Or.inr (Or.inr (Or.inr (Or.inl ⟨hv, hpw,
              by simp [login_flow, hv, hpw, htl, hre]⟩))))
          | some d =>
            by_cases hd : d = ""
            · refine Or.inr (Or.inr (Or.inr (Or.inr (Or.inl ⟨hv, hpw, ?_⟩))))
              simp [login_flow, hv, hpw, htl, hre, hd]
            · rcases hf : fetch_did_document env.net d with _ | doc
              · exact Or.inr (Or.inr (Or.inr (Or.inr (Or.inr (Or.inl ⟨hv, hpw,
                  d, hd, by simp [login_flow, hv, hpw, htl, hre, hd, hf]⟩)))))
              · by_cases hdt : docTruthy doc = false
                · refine Or.inr (Or.inr (Or.inr (Or.inr (Or.inr (Or.inl ⟨hv,
                    hpw, d, hd, ?_⟩)))))
                  simp [login_flow, hv, hpw, htl, hre, hd, hf, hdt]
                · have hdt2 : docTruthy doc = true := by
                    revert hdt; cases docTruthy doc <;> simp
                  rcases hx : extract_pds_from_did_doc doc d with _ | p
                  · exact Or.inr (Or.inr (Or.inr (Or.inr (Or.inr (Or.inr
                      (Or.inl ⟨hv, hpw, d, doc, hd, hdt2,
                        by simp [login_flow, hv, hpw, htl, hre, hd, hf, hdt,
                          hx]⟩))))))
                  · by_cases hp : p = ""
                    · refine Or.inr (Or.inr (Or.inr (Or.inr (Or.inr (Or.inr
                        (Or.inl ⟨hv, hpw, d, doc, hd, hdt2, ?_⟩))))))
                      simp [login_flow, hv, hpw, htl, hre, hd, hf, hdt, hx, hp]
                    · rcases htl2 : try_login env (some p)
                          (normalizedInput (pyStrip raw))
                          (pyStrip env.appPassword) with ⟨oc2, porf2⟩
                      cases oc2 with
                      | some c2 =>
                        refine Or.inr (Or.inr (Or.inr (Or.inr (Or.inr (Or.inr
                          (Or.inr (Or.inl ⟨hv, hpw, d, doc, p, c2, porf2, hd,
                            hdt2, hp, htl2, ?_⟩)))))))
                        simp [login_flow, hv, hpw, htl, hre, hd, hf, hdt, hx,
                          hp, htl2]
                      | none =>
                        refine Or.inr (Or.inr (Or.inr (Or.inr (Or.inr (Or.inr
                          (Or.inr (Or.inr ⟨hv, hpw, d, doc, p, hd, hdt2, hp,
                            ?_⟩)))))))
                        simp [login_flow, hv, hpw, htl, hre, hd, hf, hdt, hx,
                          hp, htl2]

/-! ## Theorems about `extract_pds_from_did_doc` (C4) -/

theorem firstIdMatch_cons (did : String) (s : SvcEntry)
    (rest : List SvcEntry) :
    firstIdMatch did (s :: rest) =
      match (if idMatch s did then validEp s else none) with
      | some t => some (pyRstrip t '/')
      | none => firstIdMatch did rest := rfl

theorem firstIdMatch_skip (did : String) (s : SvcEntry) (rest : List SvcEntry)
    (h : ¬(idMatch s did = true ∧ (validEp s).isSome = true)) :
    firstIdMatch did (s :: rest) = firstIdMatch did rest := by
  rw [firstIdMatch_cons]
  by_cases hm : idMatch s did = true
  · have hv : validEp s = none := by
      cases hve : validEp s with
      | none => rfl
      | some e => exact absurd ⟨hm, by rw [hve]; rfl⟩ h
    simp [hm, hv]
  · simp [hm]

theorem firstIdMatch_prepend (did : String) (pre l : List SvcEntry)
    (h : ∀ x ∈ pre, ¬(idMatch x did = true ∧ (validEp x).isSome = true)) :
    firstIdMatch did (pre ++ l) = firstIdMatch did l := by
  induction pre with
  | nil => rfl
  | cons a r ih =>
    rw [List.cons_append, firstIdMatch_skip did a (r ++ l) (h a (by simp))]
    exact ih (fun x hx => h x (by simp [hx]))

theorem firstIdMatch_cons_hit (did : String) (s : SvcEntry)
    (rest : List SvcEntry) (e : String) (hm : idMatch s did = true)
    (he : validEp s = some e) :
    firstIdMatch did (s :: rest) = some (pyRstrip e '/') := by
  rw [firstIdMatch_cons]
  simp [hm, he]

theorem firstIdMatch_none_of_invalid (did : String) (l : List SvcEntry)
    (h : ∀ s ∈ l, idMatch s did = true → validEp s = none) :
    firstIdMatch did l = none := by
  induction l with
  | nil => rfl
  | cons a r ih =>
    rw [firstIdMatch_skip did a r]
    · exact ih (fun s hs => h s (by simp [hs]))
    · rintro ⟨hm, hv⟩
      rw [h a (by simp) hm] at hv
      simp at hv

theorem firstHttp_cons (s : SvcEntry) (rest : List SvcEntry) :
    firstHttp (s :: rest) =
      match fallbackEp s with
      | some t => some (pyRstrip t '/')
      | none => firstHttp rest := rfl

theorem firstHttp_skip (s : SvcEntry) (rest : List SvcEntry)
    (h : fallbackEp s = none) : firstHttp (s :: rest) = firstHttp rest := by
  rw [firstHttp_cons]
  simp [h]

theorem firstHttp_prepend (pre l : List SvcEntry)
    (h : ∀ x ∈ pre, fallbackEp x = none) :
    firstHttp (pre ++ l) = firstHttp l := by
  induction pre with
  | nil => rfl
  | cons a r ih =>
    rw [List.cons_append, firstHttp_skip a (r ++ l) (h a (by simp))]
    exact ih (fun x hx => h x (by simp [hx]))

theorem firstHttp_cons_hit (s : SvcEntry) (rest : List SvcEntry) (e : String)
    (he : fallbackEp s = some e) :
    firstHttp (s :: rest) = some (pyRstrip e '/') := by
  rw [firstHttp_cons]
  simp [he]

theorem firstHttp_none_of (l : List SvcEntry)
    (h : ∀ s ∈ l, fallbackEp s = none) : firstHttp l = none := by
  induction l with
  | nil => rfl
  | cons a r ih =>
    rw [firstHttp_skip a r (h a (by simp))]
    exact ih (fun s hs => h s (by simp [hs]))

/-- C4: the extractor returns the endpoint (trailing slash removed) of the
first service descriptor whose id matches `#atproto_pds` and whose endpoint
is a nonempty string; when no descriptor matches by id it returns the first
descriptor whose endpoint string starts with an HTTP scheme (slash removed);
and it returns nothing when the service list is empty or nothing matches
either rule. -/
theorem extract_pds_spec (doc : DidDoc) (did : String) :
    (svcList doc = [] → extract_pds_from_did_doc doc did = none)
  ∧ (∀ pre s post e, svcList doc = pre ++ s :: post →
      (∀ x ∈ pre, ¬(idMatch x did = true ∧ (validEp x).isSome = true)) →
      idMatch s did = true → validEp s = some e →
      extract_pds_from_did_doc doc did = some (pyRstrip e '/'))
  ∧ (∀ pre s post e, svcList doc = pre ++ s :: post →
      (∀ x ∈ svcList doc, idMatch x did = false) →
      (∀ x ∈ pre, fallbackEp x = none) →
      fallbackEp s = some e →
      extract_pds_from_did_doc doc did = some (pyRstrip e '/'))
  ∧ ((∀ s ∈ svcList doc,
        (idMatch s did = true → validEp s = none) ∧ fallbackEp s = none) →
      extract_pds_from_did_doc doc did = none) := by
  refine ⟨?_, ?_, ?_, ?_⟩
  · intro h
    simp [extract_pds_from_did_doc, h]
  · intro pre s post e hsvc hpre hm he
    have hne : svcList doc ≠ [] := by
      rw [hsvc]
      exact List.append_ne_nil_of_right_ne_nil pre (by simp)
    unfold extract_pds_from_did_doc
    rw [if_neg hne, hsvc, firstIdMatch_prepend did pre (s :: post) hpre,
      firstIdMatch_cons_hit did s post e hm he]
  · intro pre s post e hsvc hid hpre he
    have hne : svcList doc ≠ [] := by
      rw [hsvc]
      exact List.append_ne_nil_of_right_ne_nil pre (by simp)
    have hfim : firstIdMatch did (svcList doc) = none :=
      firstIdMatch_none_of_invalid did (svcList doc)
        (fun x hx hm => absurd hm (by simp [hid x hx]))
    unfold extract_pds_from_did_doc
    rw [if_neg hne, hfim, hsvc, firstHttp_prepend pre (s :: post) hpre,
      firstHttp_cons_hit s post e he]
  · intro h
    by_cases hne : svcList doc = []
    · simp [extract_pds_from_did_doc, hne]
    · have hfim : firstIdMatch did (svcList doc) = none :=
        firstIdMatch_none_of_invalid did (svcList doc)
          (fun x hx => (h x hx).1)
      have hfh : firstHttp (svcList doc) = none :=
        firstHttp_none_of (svcList doc) (fun x hx => (h x hx).2)
      unfold extract_pds_from_did_doc
      rw [if_neg hne, hfim, hfh]

/-- The spec's worked example: descriptor id `did:plc:abc#atproto_pds`,
endpoint `https://pds.example/`. -/
def svcExample : SvcEntry :=
  ⟨some "did:plc:abc#atproto_pds", some (.str "https://pds.example/"), none⟩

/-- A document holding only the worked example descriptor. -/
def docExample : DidDoc := ⟨some [svcExample], none, false⟩

/-- C4 witness: the spec's worked example evaluates to
`https://pds.example` with the trailing slash stripped. -/
theorem extract_pds_spec_witness :
    extract_pds_from_did_doc docExample "did:plc:abc" =
      some "https://pds.example" := by
  have h := (extract_pds_spec docExample "did:plc:abc").2.1 [] svcExample []
    "https://pds.example/" rfl (by intro x hx; exact absurd hx (by simp))
    (by decide) (by decide)
  exact h.trans (by decide)

/-! ## Theorems about the resolution cascade (C1, C5) -/

theorem wk_tail_ok (net : Net) (domain : String) :
    ∃ w, (if domain = "" then (Except.ok none : Except PyExc (Option String))
      else
        match net.httpText
            ("https://" ++ domain ++ "/.well-known/atproto-did") with
        | .exc => .ok none
        | .resp st body =>
          if st = 200 then .ok (some (pyStrip body)) else .ok none) =
      .ok w := by
  split
  · exact ⟨none, rfl⟩
  · rcases net.httpText ("https://" ++ domain ++ "/.well-known/atproto-did")
      with _ | ⟨st, body⟩
    · exact ⟨none, rfl⟩
    · by_cases h200 : st = 200
      · exact ⟨some (pyStrip body), by simp [h200]⟩
      · exact ⟨none, by simp [h200]⟩

theorem wk_ok_of_no_slash (net : Net) (x : String)
    (hx : pyContains (strip_at x) '/' = false) :
    ∃ w, resolve_handle_via_well_known net x = .ok w := by
  unfold resolve_handle_via_well_known
  simp only [hx, Bool.false_eq_true, if_false]
  by_cases hc : pyContains (strip_at x) '.' = true
  · simp only [hc, if_true]
    exact wk_tail_ok net _
  · rw [if_neg hc]
    exact wk_tail_ok net _

/-- C1: with the DNS library available and a well-formed (slash-free) handle,
`resolve_handle_to_did` tries DNS, then well-known, then the public resolver,
in that order; it returns the first truthy (non-empty) DID without invoking
any later strategy, and it returns no DID only when no strategy produced a
truthy result. -/
theorem resolve_cascade_order (net : Net) (h : String)
    (hdns : net.dnsAvail = true) (hsl : pyContains h '/' = false) :
    (pyTruthyStr (resolve_handle_via_dns net (strip_at h)) = true →
      resolve_handle_to_did_traced net h =
        (.ok (resolve_handle_via_dns net (strip_at h)), [.dns]))
  ∧ (∀ w, pyTruthyStr (resolve_handle_via_dns net (strip_at h)) = false →
      resolve_handle_via_well_known net (strip_at h) = .ok w →
      pyTruthyStr w = true →
      resolve_handle_to_did_traced net h = (.ok w, [.dns, .wellKnown]))
  ∧ (∀ w, pyTruthyStr (resolve_handle_via_dns net (strip_at h)) = false →
      resolve_handle_via_well_known net (strip_at h) = .ok w →
      pyTruthyStr w = false →
      resolve_handle_to_did_traced net h =
        (.ok (resolve_handle_public_api net (strip_at h)),
          [.dns, .wellKnown, .publicApi]))
  ∧ ((resolve_handle_to_did_traced net h).fst = .ok none →
      pyTruthyStr (resolve_handle_via_dns net (strip_at h)) = false ∧
      (∀ w, resolve_handle_via_well_known net (strip_at h) = .ok w →
        pyTruthyStr w = false) ∧
      pyTruthyStr (resolve_handle_public_api net (strip_at h)) = false) := by
  have hA : pyTruthyStr (resolve_handle_via_dns net (strip_at h)) = true →
      resolve_handle_to_did_traced net h =
        (.ok (resolve_handle_via_dns net (strip_at h)), [.dns]) := by
    intro ht
    simp [resolve_handle_to_did_traced, hdns, ht]
  have hB : ∀ w,
      pyTruthyStr (resolve_handle_via_dns net (strip_at h)) = false →
      resolve_handle_via_well_known net (strip_at h) = .ok w →
      pyTruthyStr w = true →
      resolve_handle_to_did_traced net h = (.ok w, [.dns, .wellKnown]) := by
    intro w hf hw htw
    simp [resolve_handle_to_did_traced, hdns, hf, hw, htw]
  have hC : ∀ w,
      pyTruthyStr (resolve_handle_via_dns net (strip_at h)) = false →
      resolve_handle_via_well_known net (strip_at h) = .ok w →
      pyTruthyStr w = false →
      resolve_handle_to_did_traced net h =
        (.ok (resolve_handle_public_api net (strip_at h)),
          [.dns, .wellKnown, .publicApi]) := by
    intro w hf hw htw
    simp [resolve_handle_to_did_traced, hdns, hf, hw, htw]
  refine ⟨hA, hB, hC, ?_⟩
  intro hres
  have hx : pyContains (strip_at (strip_at h)) '/' = false :=
    pyContains_strip_at_false _ _ (pyContains_strip_at_false _ _ hsl)
  obtain ⟨w, hw⟩ := wk_ok_of_no_slash net (strip_at h) hx
  by_cases ht : pyTruthyStr (resolve_handle_via_dns net (strip_at h)) = true
  · rw [hA ht] at hres
    have hres2 : (Except.ok (resolve_handle_via_dns net (strip_at h)) :
        Except PyExc (Option String)) = Except.ok none := hres
    injection hres2 with hd1
    rw [hd1] at ht
    exact absurd ht (by simp [pyTruthyStr])
  · have hf : pyTruthyStr (resolve_handle_via_dns net (strip_at h)) = false := by
      revert ht
      cases pyTruthyStr (resolve_handle_via_dns net (strip_at h)) <;> simp
    by_cases htw : pyTruthyStr w = true
    · rw [hB w hf hw htw] at hres
      have hres2 : (Except.ok w : Except PyExc (Option String)) =
          Except.ok none := hres
      injection hres2 with hwn
      rw [hwn] at htw
      exact absurd htw (by simp [pyTruthyStr])
    · have htw2 : pyTruthyStr w = false := by
        revert htw
        cases pyTruthyStr w <;> simp
      rw [hC w hf hw htw2] at hres
      have hres2 : (Except.ok (resolve_handle_public_api net (strip_at h)) :
          Except PyExc (Option String)) = Except.ok none := hres
      injection hres2 with hpub
      refine ⟨hf, ?_, by rw [hpub]; rfl⟩
      intro w2 hw2
      have hww : w2 = w := by
        have := hw2.symm.trans hw
        injection this
      rw [hww]
      exact htw2

/-- A network environment in which every interaction fails. -/
def netStub : Net where
  dnsAvail := false
  dnsTxt := fun _ => none
  httpText := fun _ => .exc
  httpPub := fun _ => .exc
  httpJson := fun _ => .exc
  httpUni := fun _ => .exc

/-- Like `netStub` but with DNS available and answering with a fixed DID. -/
def netDnsHit : Net :=
  { netStub with dnsAvail := true, dnsTxt := fun _ => some ["did=did:plc:abc"] }

/-- C1 witness: a DNS hit resolves immediately and only the DNS strategy is
invoked. -/
theorem resolve_cascade_order_witness :
    resolve_handle_to_did_traced netDnsHit "alice.test" =
      (.ok (some "did:plc:abc"), [Strat.dns]) := by
  have h := (resolve_cascade_order netDnsHit "alice.test" rfl (by decide)).1
    (by decide)
  exact h.trans (by decide)

/-- An environment whose default-service login always fails and whose network
is `netStub`. -/
def envCrash : Env where
  net := netStub
  login := fun _ _ _ => .failure "401 Unauthorized"
  appPassword := "app-password"

/-- C5: the domain extraction of `resolve_handle_via_well_known` raises an
uncaught `IndexError` on an input containing `/` whose first `/`-segment has
no `.` (for example a pasted profile URL), for every transport environment;
through `login_flow` the exception escapes the whole resolution cascade. -/
theorem well_known_escaping_index_error :
    (∀ net : Net, resolve_handle_via_well_known net
        "https://bsky.app/profile/alice" = .error .indexError)
  ∧ (login_flow envCrash "https://bsky.app/profile/alice").result =
      .error .indexError := by
  constructor
  · intro net
    rfl
  · rfl

/-! ## Theorems about `login_flow` (C2, C3, C7, C8, C9) -/

theorem pyOrStr_some (s dflt : String) (hs : s ≠ "") :
    pyOrStr (some s) dflt = s := by
  simp [pyOrStr, hs]

theorem pyOr_some_truthy (s : String) (b : Option String) (hs : s ≠ "") :
    pyOr (some s) b = some s := by
  simp [pyOr, pyTruthyStr, hs]

/-- C2: a run of `login_flow` makes at most two login attempts, the first
against the default service and the second against a discovered PDS; the
second happens only once resolution has produced a truthy DID, a truthy DID
document, and a nonempty PDS endpoint; a fetched document without a PDS
endpoint ends the run in failure after the single default attempt; and after
the second attempt the run ends, in failure or with a session bound to the
discovered host. -/
theorem login_flow_two_attempts (env : Env) (raw : String) :
    ((login_flow env raw).attempts = [] ∨
      (login_flow env raw).attempts = [none] ∨
      ∃ p, (login_flow env raw).attempts = [none, some p])
  ∧ (∀ p, (login_flow env raw).attempts = [none, some p] →
      (login_flow env raw).pds = some p ∧ p ≠ "" ∧
      (∃ d, (login_flow env raw).did = some d ∧ d ≠ "") ∧
      (∃ doc, (login_flow env raw).doc = some doc ∧ docTruthy doc = true))
  ∧ ((login_flow env raw).doc ≠ none → (login_flow env raw).pds = none →
      (login_flow env raw).result = .ok none ∧
      (login_flow env raw).attempts = [none])
  ∧ (∀ p, (login_flow env raw).attempts = [none, some p] →
      (login_flow env raw).result = .ok none ∨
      ∃ c d, (login_flow env raw).result = .ok (some (c, d)) ∧
        c.base = some (normBase p)) := by
  rcases login_flow_master env raw with
      ⟨hv, ht⟩ | ⟨hv, hpw, ht⟩ | ⟨hv, hpw, c, porf, htl, ht⟩ |
      ⟨hv, hpw, e, ht⟩ | ⟨hv, hpw, ht⟩ | ⟨hv, hpw, dd, hdd, ht⟩ |
      ⟨hv, hpw, dd, dc, hdd, hdt, ht⟩ |
      ⟨hv, hpw, dd, dc, pp, cc, pf, hdd, hdt, hpp, htl, ht⟩ |
      ⟨hv, hpw, dd, dc, pp, hdd, hdt, hpp, ht⟩
  · rw [ht]
    exact ⟨Or.inl rfl, fun p hp => absurd hp (by simp),
      fun h1 _ => absurd rfl h1, fun p hp => absurd hp (by simp)⟩
  · rw [ht]
    exact ⟨Or.inl rfl, fun p hp => absurd hp (by simp),
      fun h1 _ => absurd rfl h1, fun p hp => absurd hp (by simp)⟩
  · rw [ht]
    exact ⟨Or.inr (Or.inl rfl), fun p hp => absurd hp (by simp),
      fun h1 _ => absurd rfl h1, fun p hp => absurd hp (by simp)⟩
  · rw [ht]
    exact ⟨Or.inr (Or.inl rfl), fun p hp => absurd hp (by simp),
      fun h1 _ => absurd rfl h1, fun p hp => absurd hp (by simp)⟩
  · rw [ht]
    exact ⟨Or.inr (Or.inl rfl), fun p hp => absurd hp (by simp),
      fun h1 _ => absurd rfl h1, fun p hp => absurd hp (by simp)⟩
  · rw [ht]
    exact ⟨Or.inr (Or.inl rfl), fun p hp => absurd hp (by simp),
      fun h1 _ => absurd rfl h1, fun p hp => absurd hp (by simp)⟩
  · rw [ht]
    exact ⟨Or.inr (Or.inl rfl), fun p hp => absurd hp (by simp),
      fun _ _ => ⟨rfl, rfl⟩, fun p hp => absurd hp (by simp)⟩
  · rw [ht]
    refine ⟨Or.inr (Or.inr ⟨pp, rfl⟩), ?_, ?_, ?_⟩
    · intro p hp
      have hp2 : pp = p := by
        have h0 : ([none, some pp] : List (Option String)) = [none, some p] :=
          hp
        simpa using h0
      subst hp2
      exact ⟨rfl, hpp, ⟨dd, rfl, hdd⟩, ⟨dc, rfl, hdt⟩⟩
    · intro _ h2
      simp at h2
    · intro p hp
      have hp2 : pp = p := by
        have h0 : ([none, some pp] : List (Option String)) = [none, some p] :=
          hp
        simpa using h0
      subst hp2
      right
      refine ⟨cc, pyOrStr cc.meDid dd, rfl, ?_⟩
      have hb := (try_login_some env (some pp) (normalizedInput (pyStrip raw))
        (pyStrip env.appPassword) cc pf htl).1
      rw [hb]
      simp [clientBase, hpp]
  · rw [ht]
    refine ⟨Or.inr (Or.inr ⟨pp, rfl⟩), ?_, ?_, ?_⟩
    · intro p hp
      have hp2 : pp = p := by
        have h0 : ([none, some pp] : List (Option String)) = [none, some p] :=
          hp
        simpa using h0
      subst hp2
      exact ⟨rfl, hpp, ⟨dd, rfl, hdd⟩, ⟨dc, rfl, hdt⟩⟩
    · intro _ h2
      simp at h2
    · intro p _
      exact Or.inl rfl

/-- The spec's end-to-end scenario 2: default login fails, DNS gives the DID,
plc.directory gives a document with a PDS entry, and login against the
discovered PDS succeeds. -/
def docPds : DidDoc :=
  ⟨some [⟨some "#atproto_pds", some (.str "https://pds.example/"), none⟩],
    none, false⟩

/-- Network for the scenario: DNS answers, plc.directory serves `docPds`. -/
def netPds : Net where
  dnsAvail := true
  dnsTxt := fun _ => some ["did=did:plc:xyz"]
  httpText := fun _ => .exc
  httpPub := fun _ => .exc
  httpJson := fun _ => .resp 200 (some docPds)
  httpUni := fun _ => .exc

/-- Environment for the scenario: default service rejects, the PDS accepts. -/
def envPds : Env where
  net := netPds
  login := fun b _ _ =>
    match b with
    | none => .failure "401"
    | some _ => .success none true none
  appPassword := "app-password"

/-- C2 witness: the two-attempt run of scenario 2, with the discovered PDS
and resolution artifacts exposed. -/
theorem login_flow_two_attempts_witness :
    (login_flow envPds "bob.example.com").pds = some "https://pds.example" ∧
    "https://pds.example" ≠ "" ∧
    (∃ d, (login_flow envPds "bob.example.com").did = some d ∧ d ≠ "") ∧
    (∃ doc, (login_flow envPds "bob.example.com").doc = some doc ∧
      docTruthy doc = true) :=
  (login_flow_two_attempts envPds "bob.example.com").2.1 "https://pds.example"
    (by decide)

/-- C3: on success the session DID is the authenticated identity's reported
DID when truthy; in the default-service attempt (no resolved DID exists
there) it falls back through the login profile's `did` to the identifier; in
the discovered-PDS attempt it falls back to the resolved DID. -/
theorem login_flow_session_did (env : Env) (raw : String) (c : ClientState)
    (d : String)
    (hres : (login_flow env raw).result = .ok (some (c, d))) :
    (∀ s, c.meDid = some s → s ≠ "" → d = s)
  ∧ (c.base = none →
      (login_flow env raw).did = none ∧
      ∃ porf, try_login env none (normalizedInput (pyStrip raw))
          (pyStrip env.appPassword) = (some c, porf) ∧
        d = pyOrStr (pyOr c.meDid (profDictDid porf))
          (normalizedInput (pyStrip raw)))
  ∧ (c.base ≠ none →
      ∃ d0, (login_flow env raw).did = some d0 ∧ d0 ≠ "" ∧
        d = pyOrStr c.meDid d0) := by
  rcases login_flow_master env raw with
      ⟨hv, ht⟩ | ⟨hv, hpw, ht⟩ | ⟨hv, hpw, c2, porf, htl, ht⟩ |
      ⟨hv, hpw, e, ht⟩ | ⟨hv, hpw, ht⟩ | ⟨hv, hpw, dd, hdd, ht⟩ |
      ⟨hv, hpw, dd, dc, hdd, hdt, ht⟩ |
      ⟨hv, hpw, dd, dc, pp, cc, pf, hdd, hdt, hpp, htl, ht⟩ |
      ⟨hv, hpw, dd, dc, pp, hdd, hdt, hpp, ht⟩
  · rw [ht] at hres; simp at hres
  · rw [ht] at hres; simp at hres
  · rw [ht] at hres ⊢
    simp only [Except.ok.injEq, Option.some.injEq, Prod.mk.injEq] at hres
    obtain ⟨hc, hd⟩ := hres
    subst hc
    subst hd
    refine ⟨?_, ?_, ?_⟩
    · intro s hs hsne
      rw [hs, pyOr_some_truthy s _ hsne, pyOrStr_some s _ hsne]
    · intro _
      exact ⟨rfl, porf, htl, rfl⟩
    · intro hbase
      have hb := (try_login_some env none (normalizedInput (pyStrip raw))
        (pyStrip env.appPassword) c2 porf htl).1
      exact absurd (hb.trans rfl) hbase
  · rw [ht] at hres; simp at hres
  · rw [ht] at hres; simp at hres
  · rw [ht] at hres; simp at hres
  · rw [ht] at hres; simp at hres
  · rw [ht] at hres ⊢
    simp only [Except.ok.injEq, Option.some.injEq, Prod.mk.injEq] at hres
    obtain ⟨hc, hd⟩ := hres
    subst hc
    subst hd
    have hb := (try_login_some env (some pp) (normalizedInput (pyStrip raw))
      (pyStrip env.appPassword) cc pf htl).1
    refine ⟨?_, ?_, ?_⟩
    · intro s hs hsne
      rw [hs, pyOrStr_some s _ hsne]
    · intro hbase
      rw [hb] at hbase
      simp [clientBase, hpp] at hbase
    · intro _
      exact ⟨dd, rfl, hdd, rfl⟩
  · rw [ht] at hres; simp at hres

/-- Environment in which the default-service login succeeds, reporting
`did:plc:me` both as `client.me.did` and in the profile dict. -/
def envDefault : Env where
  net := netStub
  login := fun b _ _ =>
    match b with
    | none => .success (some "did:plc:me") true (some "did:plc:me")
    | some _ => .failure "x"
  appPassword := "app-password"

/-- C3 witness: a default-service success carries no resolved DID and its
session DID follows the reported-DID fallback chain. -/
theorem login_flow_session_did_witness :
    (login_flow envDefault "alice").did = none ∧
    ∃ porf, try_login envDefault none (normalizedInput (pyStrip "alice"))
        (pyStrip envDefault.appPassword) =
          (some (ClientState.mk none (some "did:plc:me")), porf) ∧
      "did:plc:me" = pyOrStr (pyOr (ClientState.mk none
          (some "did:plc:me")).meDid (profDictDid porf))
        (normalizedInput (pyStrip "alice")) :=
  (login_flow_session_did envDefault "alice"
    (ClientState.mk none (some "did:plc:me")) "did:plc:me" (by decide)).2.1 rfl

theorem normalizedInput_keeps_at (v : String)
    (h : pyStartsWith v "@" = true) :
    pyStartsWith (normalizedInput v) "@" = true := by
  unfold normalizedInput
  split
  · unfold maybe_assume_bsky
    split
    · exact h
    · split
      · exact pyStartsWith_append v ".bsky.social" "@" h
      · exact h
  · exact h

/-- C7 (amended): `login_flow` never strips a leading `@`; an input whose
trimmed form starts with `@` yields a login identifier that still starts
with `@`.  (`@`-stripping happens only inside the resolution helpers, via
`strip_at`, and for display.) -/
theorem login_identifier_keeps_at (env : Env) (raw : String)
    (h : pyStartsWith (pyStrip raw) "@" = true) :
    ∃ idf, (login_flow env raw).identifier = some idf ∧
      pyStartsWith idf "@" = true := by
  have hv : pyStrip raw ≠ "" :=
    pyStartsWith_ne_empty (pyStrip raw) "@" (by decide) h
  have hk := normalizedInput_keeps_at (pyStrip raw) h
  rcases login_flow_master env raw with
      ⟨hv2, ht⟩ | ⟨_, _, ht⟩ | ⟨_, _, c, porf, htl, ht⟩ | ⟨_, _, e, ht⟩ |
      ⟨_, _, ht⟩ | ⟨_, _, dd, hdd, ht⟩ | ⟨_, _, dd, dc, hdd, hdt, ht⟩ |
      ⟨_, _, dd, dc, pp, cc, pf, hdd, hdt, hpp, htl, ht⟩ |
      ⟨_, _, dd, dc, pp, hdd, hdt, hpp, ht⟩
  · exact absurd hv2 hv
  all_goals exact ⟨normalizedInput (pyStrip raw), by rw [ht], hk⟩

/-- Environment whose every login attempt fails (password accepted at the
prompt). -/
def envFail : Env where
  net := netStub
  login := fun _ _ _ => .failure "401"
  appPassword := "app-password"

/-- C7 counterexample: for raw input `@alice` the normalized login
identifier is `@alice.bsky.social` — the leading `@` is not stripped. -/
theorem login_identifier_at_counterexample :
    (login_flow envFail "@alice").identifier = some "@alice.bsky.social" ∧
    pyStartsWith "@alice.bsky.social" "@" = true := ⟨rfl, by decide⟩

/-- C7 (amended) witness. -/
theorem login_identifier_keeps_at_witness :
    ∃ idf, (login_flow envFail "@alice").identifier = some idf ∧
      pyStartsWith idf "@" = true :=
  login_identifier_keeps_at envFail "@alice" (by decide)

/-- C8 (amended): an empty handle is re-prompted by `main`'s loop without
invoking the login flow; an empty credential aborts `login_flow` with
failure after the single password prompt, with no login attempt and no
resolution work — the user is then asked about trying another handle, not
re-prompted for the credential. -/
theorem empty_input_handling (env : Env) (raw : String) :
    (pyStrip raw = "" → main_handle_step env raw = (.repromptHandle, []))
  ∧ (pyStrip raw ≠ "" → pyStrip env.appPassword = "" →
      (login_flow env raw).result = .ok none ∧
      (login_flow env raw).attempts = [] ∧
      (login_flow env raw).did = none ∧
      (login_flow env raw).doc = none ∧
      (login_flow env raw).pds = none) := by
  constructor
  · intro h
    simp [main_handle_step, h]
  · intro hv hpw
    have ht : login_flow env raw =
        ⟨.ok none, [], some (normalizedInput (pyStrip raw)),
          none, none, none⟩ := by
      simp [login_flow, hv, hpw]
    rw [ht]
    exact ⟨rfl, rfl, rfl, rfl, rfl⟩

/-- Environment whose password prompt returns the empty string. -/
def envNoPw : Env where
  net := netStub
  login := fun _ _ _ => .failure "401"
  appPassword := ""

/-- C8 counterexample: with an empty credential the iteration ends in the
`loginFailed` state (the next prompt asks about another handle) instead of
re-prompting for the credential; no login attempt is made. -/
theorem empty_password_counterexample :
    main_handle_step envNoPw "alice" = (.loginFailed, []) := rfl

/-- C8 (amended) witness. -/
theorem empty_input_handling_witness :
    main_handle_step envNoPw "" = (.repromptHandle, []) ∧
    (login_flow envNoPw "alice").result = .ok none ∧
    (login_flow envNoPw "alice").attempts = [] := by
  refine ⟨(empty_input_handling envNoPw "").1 (by decide), ?_, ?_⟩
  · exact ((empty_input_handling envNoPw "alice").2 (by decide) (by decide)).1
  · exact
      ((empty_input_handling envNoPw "alice").2 (by decide) (by decide)).2.1

theorem pyEndsWith_append_self (x y : String) :
    pyEndsWith (x ++ y) y = true := by
  unfold pyEndsWith
  rw [data_append, List.reverse_append]
  exact listIsPref_self_append _ _

/-- C9: for a nonempty base URL the client targets the URL normalized by
dropping trailing slashes and appending `/xrpc` (unless already the suffix);
the normalized base always ends in `/xrpc` and differs from a bare endpoint
not already ending in `/xrpc`; and the discovered-PDS attempt of
`login_flow` targets exactly that normalized base. -/
theorem try_login_pds_base (u : String) (env : Env) (raw : String)
    (p : String) (hu : u ≠ "") :
    clientBase (some u) = some (normBase u)
  ∧ pyEndsWith (normBase u) "/xrpc" = true
  ∧ (pyEndsWith u "/xrpc" = true → normBase u = u)
  ∧ (pyEndsWith u "/xrpc" = false →
      normBase u = pyRstrip u '/' ++ "/xrpc" ∧ normBase u ≠ u)
  ∧ ((login_flow env raw).attempts = [none, some p] →
      p ≠ "" ∧ clientBase (some p) = some (normBase p)) := by
  refine ⟨by simp [clientBase, hu], ?_, ?_, ?_, ?_⟩
  · unfold normBase
    by_cases he : pyEndsWith u "/xrpc" = true
    · simp [he]
    · rw [if_neg he]
      exact pyEndsWith_append_self _ _
  · intro he
    simp [normBase, he]
  · intro he
    have hnb : normBase u = pyRstrip u '/' ++ "/xrpc" := by
      simp [normBase, he]
    refine ⟨hnb, ?_⟩
    intro heq
    have hu2 : u = pyRstrip u '/' ++ "/xrpc" := heq.symm.trans hnb
    have h2 : pyEndsWith u "/xrpc" = true := by
      rw [hu2]
      exact pyEndsWith_append_self _ _
    rw [he] at h2
    exact Bool.noConfusion h2
  · intro hatt
    rcases login_flow_master env raw with
        ⟨hv, ht⟩ | ⟨hv, hpw, ht⟩ | ⟨hv, hpw, c, porf, htl, ht⟩ |
        ⟨hv, hpw, e, ht⟩ | ⟨hv, hpw, ht⟩ | ⟨hv, hpw, dd, hdd, ht⟩ |
        ⟨hv, hpw, dd, dc, hdd, hdt, ht⟩ |
        ⟨hv, hpw, dd, dc, pp, cc, pf, hdd, hdt, hpp, htl, ht⟩ |
        ⟨hv, hpw, dd, dc, pp, hdd, hdt, hpp, ht⟩ <;>
      rw [ht] at hatt
    · simp at hatt
    · simp at hatt
    · simp at hatt
    · simp at hatt
    · simp at hatt
    · simp at hatt
    · simp at hatt
    · have hp2 : pp = p := by
        have h0 : ([none, some pp] : List (Option String)) = [none, some p] :=
          hatt
        simpa using h0
      subst hp2
      exact ⟨hpp, by simp [clientBase, hpp]⟩
    · have hp2 : pp = p := by
        have h0 : ([none, some pp] : List (Option String)) = [none, some p] :=
          hatt
        simpa using h0
      subst hp2
      exact ⟨hpp, by simp [clientBase, hpp]⟩

/-- C9 witness: the scenario-2 PDS endpoint is normalized to
`https://pds.example/xrpc`. -/
theorem try_login_pds_base_witness :
    clientBase (some "https://pds.example") =
      some "https://pds.example/xrpc" ∧
    pyEndsWith (normBase "https://pds.example") "/xrpc" = true := by
  have h := try_login_pds_base "https://pds.example" envFail "x" "p"
    (by decide)
  exact ⟨h.1.trans (by decide), h.2.1⟩

/-! ## Theorems about `fetch_did_document` (C10) -/

theorem listIsPref_append_left (p q l : List Char)
    (h : listIsPref (p ++ q) l = true) : listIsPref p l = true := by
  induction p generalizing l with
  | nil => rfl
  | cons a r ih =>
    cases l with
    | nil => simp [listIsPref] at h
    | cons b m =>
      simp only [List.cons_append, listIsPref, Bool.and_eq_true] at h ⊢
      exact ⟨h.1, ih m h.2⟩

/-- C10: for a DID of neither the web nor the plc method, the universal
resolver branch returns a document exactly when the 200 JSON body is a dict
containing the `didDocument` key (and returns that value); a 200 dict body
lacking the key — a bare, unwrapped document — yields nothing, as does a
non-dict body or a transport error. -/
theorem fetch_unknown_method_unwrap (net : Net) (did : String)
    (h1 : pyStartsWith did "did:web:" = false)
    (h2 : pyStartsWith did "did:plc" = false) :
    (∀ dd, fetch_did_document net did = some dd →
      net.httpUni ("https://uniresolver.io/1.0/identifiers/" ++ did) =
        .resp 200 (some (.obj (some dd))))
  ∧ (net.httpUni ("https://uniresolver.io/1.0/identifiers/" ++ did) =
      .resp 200 (some (.obj none)) → fetch_did_document net did = none)
  ∧ (net.httpUni ("https://uniresolver.io/1.0/identifiers/" ++ did) =
      .resp 200 (some .nonObj) → fetch_did_document net did = none)
  ∧ (net.httpUni ("https://uniresolver.io/1.0/identifiers/" ++ did) = .exc →
      fetch_did_document net did = none) := by
  have h2c : pyStartsWith did "did:plc:" = false := by
    cases hc : pyStartsWith did "did:plc:" with
    | false => rfl
    | true =>
      have hsub : pyStartsWith did "did:plc" = true := by
        unfold pyStartsWith at hc ⊢
        have hsplit : ("did:plc:").data = ("did:plc").data ++ [':'] := by
          decide
        rw [hsplit] at hc
        exact listIsPref_append_left _ _ _ hc
      rw [hsub] at h2
      exact Bool.noConfusion h2
  have hfe : fetch_did_document net did =
      match net.httpUni ("https://uniresolver.io/1.0/identifiers/" ++ did)
        with
      | .exc => none
      | .resp st body =>
        if st = 200 then
          match body with
          | none => none
          | some (.obj (some dd)) => some dd
          | some (.obj none) => none
          | some .nonObj => none
        else none := by
    unfold fetch_did_document
    rw [if_neg (by simp [h1]), if_neg (by simp [h2c, h2])]
  refine ⟨?_, ?_, ?_, ?_⟩
  · intro dd hdd
    rw [hfe] at hdd
    cases hu : net.httpUni ("https://uniresolver.io/1.0/identifiers/" ++ did)
      with
    | exc =>
      rw [hu] at hdd
      simp at hdd
    | resp st body =>
      rw [hu] at hdd
      by_cases h200 : st = 200
      · subst h200
        rcases body with _ | (dopt | _)
        · simp at hdd
        · rcases dopt with _ | x
          · simp at hdd
          · simp at hdd
            subst hdd
            rfl
        · simp at hdd
      · simp [h200] at hdd
  · intro hu
    rw [hfe, hu]
    rfl
  · intro hu
    rw [hfe, hu]
    rfl
  · intro hu
    rw [hfe, hu]

/-- Network whose universal resolver serves a bare (unwrapped) 200 JSON
dict. -/
def netUni : Net :=
  { netStub with httpUni := fun _ => .resp 200 (some (.obj none)) }

/-- C10 witness: a bare document from the universal resolver yields no
document for an unknown-method DID. -/
theorem fetch_unknown_method_unwrap_witness :
    fetch_did_document netUni "did:key:z6Mk" = none :=
  (fetch_unknown_method_unwrap netUni "did:key:z6Mk" (by decide)
    (by decide)).2.1 rfl
